import Mathlib

/-!
# Verification of `speechbrain/lobes/models/transformer/TransformerSE.py`

Shallow embedding of the `CNNTransformerSE` module (a transformer encoder
wrapper for speech enhancement) and proofs of the specification claims.

Tensors are modelled as shaped functions over rationals: a 3-D tensor is a
`batch`/`time`/`feat` shape triple together with a total valuation function.
The collaborators that live outside this repository slice
(`TransformerInterface.encoder`, `get_lookahead_mask`, `speechbrain.nnet.linear.Linear`,
and the torch activations) are modelled from the spec, as marked on each
definition; `CNNTransformerSE.__init__` and `CNNTransformerSE.forward` are
translated from the source file.
-/

namespace TransformerSE

/-- A 3-D tensor of shape `(batch, time, feat)` with rational entries.
`val` is total; entries outside the shape are irrelevant to the claims. -/
structure Tensor3 where
  batch : Nat
  time : Nat
  feat : Nat
  val : Nat → Nat → Nat → ℚ

/-- A square attention mask: `size × size`, `entry i j = true` means position
`i` is forbidden from attending to position `j`. -/
structure Mask where
  size : Nat
  entry : Nat → Nat → Bool

/-- A padding mask indexed by `(batch, time)`; `true` marks a padded position
excluded from attention. -/
def PadMask : Type := Nat → Nat → Bool

/-- Modelled from the spec: `get_lookahead_mask(tensor) → square mask` sized to
the tensor's time dimension, forbidding each position from attending to any
strictly later position. -/
def get_lookahead_mask (x : Tensor3) : Mask :=
  { size := x.time, entry := fun i j => decide (i < j) }

/-- Lookup in an optional attention mask; absent mask forbids nothing. -/
def maskEntry (M : Option Mask) (i j : Nat) : Bool :=
  match M with
  | none => false
  | some m => m.entry i j

/-- Lookup in an optional padding mask; absent mask pads nothing. -/
def padEntry (P : Option PadMask) (b j : Nat) : Bool :=
  match P with
  | none => false
  | some p => p b j

/-- Whether, for batch `b`, query position `i` may attend to key position `j`:
neither forbidden by the attention mask nor a padded position. -/
def attnAllowed (M : Option Mask) (P : Option PadMask) (b i j : Nat) : Bool :=
  !(maskEntry M i j) && !(padEntry P b j)

/-- The set of key positions that query position `i` of batch `b` may attend
to, among the `T` positions of the sequence. -/
def allowedKeys (T : Nat) (M : Option Mask) (P : Option PadMask) (b i : Nat) :
    Finset Nat :=
  (Finset.range T).filter (fun j => attnAllowed M P b i j = true)

/-- Modelled from the spec: one self-attention mixing layer of the external
encoder stack.  Masked attention weights are exactly zero; allowed weights are
uniform over the allowed key positions.  Shape `(batch, time, feat)` is
preserved. -/
def encoderLayer (M : Option Mask) (P : Option PadMask) (t : Tensor3) : Tensor3 :=
  { t with
    val := fun b i f =>
      (∑ j ∈ allowedKeys t.time M P b i, t.val b j f) /
        ((allowedKeys t.time M P b i).card : ℚ) }

/-- Modelled from the spec: the attention-weight diagnostics returned by the
encoder alongside its primary output: weight of query `i` on key `j` for
batch `b`. -/
def attnWeights (M : Option Mask) (P : Option PadMask) (t : Tensor3) :
    Nat → Nat → Nat → ℚ :=
  fun b i j =>
    if attnAllowed M P b i j = true then
      1 / ((allowedKeys t.time M P b i).card : ℚ)
    else 0

/-- Modelled from the spec: the external transformer-interface collaborator.
Its constructor records (head count, input width, encoder-layer count,
decoder-layer count, feed-forward width, dropout, inner activation,
positional-encoding flag). -/
structure TransformerInterface where
  nhead : Nat
  input_size : Nat
  num_encoder_layers : Nat
  num_decoder_layers : Nat
  d_ffn : Nat
  dropout : ℚ
  activation : ℚ → ℚ
  positional_encoding : Bool

/-- Modelled from the spec: the encoder sub-component, callable as
`encoder(src, src_mask, src_key_padding_mask) → (output, attention_diagnostics)`.
The stack applies `num_encoder_layers` masked mixing layers. -/
def TransformerInterface.encoder (ti : TransformerInterface) (src : Tensor3)
    (src_mask : Option Mask) (pad : Option PadMask) :
    Tensor3 × (Nat → Nat → Nat → ℚ) :=
  ((encoderLayer src_mask pad)^[ti.num_encoder_layers] src,
    attnWeights src_mask pad src)

/-- Modelled from the spec: the linear-projection collaborator
`speechbrain.nnet.linear.Linear`, constructible with (output width `n_neurons`,
`input_size`, `bias` flag); `W` and `b` are its framework-initialized
parameters. -/
structure Linear where
  n_neurons : Nat
  input_size : Nat
  bias : Bool
  W : Nat → Nat → ℚ
  b : Nat → ℚ

/-- Modelled from the spec: applying the linear projection to the last
dimension of a 3-D tensor; the bias term participates only when the `bias`
flag is set. -/
def Linear.apply (L : Linear) (t : Tensor3) : Tensor3 :=
  { batch := t.batch, time := t.time, feat := L.n_neurons,
    val := fun bi i k =>
      (∑ f ∈ Finset.range L.input_size, L.W k f * t.val bi i f) +
        (if L.bias then L.b k else 0) }

/-- Modelled from the spec: rectified-linear activation (torch `nn.ReLU`),
the default output activation. -/
def relu (q : ℚ) : ℚ := max q 0

/-- Modelled from the spec: leaky rectified-linear activation
(torch `nn.LeakyReLU`, default negative slope 1/100), the default inner
activation. -/
def leakyRelu (q : ℚ) : ℚ := if q < 0 then q / 100 else q

/-- Elementwise application of an activation function to a tensor. -/
def activApply (act : ℚ → ℚ) (t : Tensor3) : Tensor3 :=
  { t with val := fun b i f => act (t.val b i f) }

/-- The `CNNTransformerSE` module state: the `TransformerInterface` base
configuration plus the fields set in `__init__`, and the `attn_mask`
instance attribute written by `forward`. -/
structure CNNTransformerSE extends TransformerInterface where
  custom_emb_module : Option (Tensor3 → Tensor3)
  causal : Bool
  output_layer : Linear
  output_activation : ℚ → ℚ
  attn_mask : Option Mask

/-- `CNNTransformerSE.__init__` translated from the source: delegates to the
`TransformerInterface` constructor with `num_encoder_layers = num_layers`,
`num_decoder_layers = 0`, `positional_encoding = False`, and builds
`Linear(output_size, input_size=input_size, bias=False)` (parameters `W`
supplied by the framework's initialization, modelled as an argument) and the
instantiated output activation. -/
def CNNTransformerSE.init (output_size input_size : Nat)
    (output_activation : ℚ → ℚ) (nhead num_layers d_ffn : Nat) (dropout : ℚ)
    (activation : ℚ → ℚ) (causal : Bool)
    (custom_emb_module : Option (Tensor3 → Tensor3))
    (W : Nat → Nat → ℚ) : CNNTransformerSE :=
  { nhead := nhead
    input_size := input_size
    num_encoder_layers := num_layers
    num_decoder_layers := 0
    d_ffn := d_ffn
    dropout := dropout
    activation := activation
    positional_encoding := false
    custom_emb_module := custom_emb_module
    causal := causal
    output_layer :=
      { n_neurons := output_size, input_size := input_size, bias := false,
        W := W, b := fun _ => 0 }
    output_activation := output_activation
    attn_mask := none }

/-- The attention mask computed at the top of `forward`: the lookahead mask of
the raw input when `causal`, otherwise `None`. -/
def forwardMask (m : CNNTransformerSE) (x : Tensor3) : Option Mask :=
  if m.causal then some (get_lookahead_mask x) else none

/-- The tensor handed to the encoder: `custom_emb_module(x)` when a custom
embedding module is configured, otherwise `x` itself. -/
def forwardEmb (m : CNNTransformerSE) (x : Tensor3) : Tensor3 :=
  match m.custom_emb_module with
  | some f => f x
  | none => x

/-- `CNNTransformerSE.forward` translated from the source.  The first
component of the result is the module state after the call (the `attn_mask`
attribute is reassigned); the second is the returned tensor. -/
def CNNTransformerSE.forward (m : CNNTransformerSE) (x : Tensor3)
    (src_key_padding_mask : Option PadMask) : CNNTransformerSE × Tensor3 :=
  let mask := forwardMask m x
  let m₂ := { m with attn_mask := mask }
  let x₂ := forwardEmb m x
  let encPair := m.toTransformerInterface.encoder x₂ mask src_key_padding_mask
  let encoder_output := encPair.1
  let output := m.output_layer.apply encoder_output
  let output₂ := activApply m.output_activation output
  (m₂, output₂)

/-- Follows the spec's words (refinement target for the absent embedding
module): forward with no custom embedding module "is equivalent to passing `x`
unchanged into the encoder", then projecting and activating. -/
def forwardSpecNoEmb (m : CNNTransformerSE) (x : Tensor3)
    (pad : Option PadMask) : Tensor3 :=
  activApply m.output_activation
    (m.output_layer.apply
      ((m.toTransformerInterface.encoder x (forwardMask m x) pad).1))

/-- The `forward` pipeline with each collaborator as a fallible stage
(exceptions embedded as `Except`), in the source's straight-line order:
mask generation, optional embedding, encoder, projection, activation.  The
source wraps none of these calls in any handler, so each stage's error is
the call's result. -/
def stagedForward (maskgen : Tensor3 → Except String (Option Mask))
    (emb : Tensor3 → Except String Tensor3)
    (enc : Tensor3 → Option Mask → Option PadMask →
      Except String (Tensor3 × (Nat → Nat → Nat → ℚ)))
    (proj : Tensor3 → Except String Tensor3)
    (oact : Tensor3 → Except String Tensor3)
    (x : Tensor3) (pad : Option PadMask) : Except String Tensor3 := do
  let mask ← maskgen x
  let x₂ ← emb x
  let p ← enc x₂ mask pad
  let y ← proj p.1
  oact y

/-- A concrete causal module with no embedding module: one layer, one head,
widths 1, unit projection weight. -/
def mCz : CNNTransformerSE :=
  CNNTransformerSE.init 1 1 relu 1 1 1 0 leakyRelu true none (fun _ _ => 1)

/-- A concrete input: one batch, two frames, one feature, all zero. -/
def xCz : Tensor3 := ⟨1, 2, 1, fun _ _ _ => 0⟩

/-- `xCz` with frame 1 changed to the value 2. -/
def yCz : Tensor3 := ⟨1, 2, 1, fun _ i _ => if i = 1 then 2 else 0⟩

/-- A time-reversing custom embedding module: frame `i` of the output is
frame `time - 1 - i` of the input (a module with lookahead, as a CNN
front-end with symmetric context would be). -/
def revEmb : Tensor3 → Tensor3 :=
  fun t => { t with val := fun b i f => t.val b (t.time - 1 - i) f }

/-- A causal module configured with the time-reversing embedding module. -/
def mRev : CNNTransformerSE :=
  CNNTransformerSE.init 1 1 relu 1 1 1 0 leakyRelu true (some revEmb)
    (fun _ _ => 1)

/-- A concrete input for `mRev`: one batch, two frames, one feature, zero. -/
def xA : Tensor3 := ⟨1, 2, 1, fun _ _ _ => 0⟩

/-- `xA` with frame 1 changed to the value 2. -/
def xB : Tensor3 := ⟨1, 2, 1, fun _ i _ => if i = 1 then 2 else 0⟩

/-- A concrete non-causal module (`causal := false`), no embedding module. -/
def mNC : CNNTransformerSE :=
  CNNTransformerSE.init 1 1 relu 1 1 1 0 leakyRelu false none (fun _ _ => 1)

/-- A concrete input for `mNC`: one batch, two frames, one feature, zero. -/
def xN : Tensor3 := ⟨1, 2, 1, fun _ _ _ => 0⟩

/-- `xN` with frame 1 changed to the value 2. -/
def xN2 : Tensor3 := ⟨1, 2, 1, fun _ i _ => if i = 1 then 2 else 0⟩

/-- A concrete module with `custom_emb_module = none` for the refinement
witness. -/
def mId : CNNTransformerSE :=
  CNNTransformerSE.init 2 3 relu 2 2 4 0 leakyRelu true none (fun _ _ => 1)

/-- A concrete input for `mId`. -/
def xId : Tensor3 := ⟨1, 2, 3, fun _ _ _ => 1⟩

/-- A concrete module with the default rectified-linear output activation and
a negative projection weight. -/
def mR : CNNTransformerSE :=
  CNNTransformerSE.init 1 1 relu 1 1 1 0 leakyRelu true none (fun _ _ => -1)

/-- A concrete input for `mR`. -/
def xR : Tensor3 := ⟨1, 1, 1, fun _ _ _ => 5⟩

/-- A concrete module for the error-propagation witness. -/
def mE : CNNTransformerSE :=
  CNNTransformerSE.init 1 1 relu 1 1 1 0 leakyRelu true none (fun _ _ => 1)

/-- A concrete input for `mE`. -/
def xE : Tensor3 := ⟨1, 1, 1, fun _ _ _ => 0⟩

/-- A custom embedding module that shortens the time dimension by one frame. -/
def truncEmb : Tensor3 → Tensor3 := fun t => ⟨t.batch, t.time - 1, t.feat, t.val⟩

/-- A causal module configured with the time-shortening embedding module. -/
def mTr : CNNTransformerSE :=
  CNNTransformerSE.init 1 1 relu 1 1 1 0 leakyRelu true (some truncEmb)
    (fun _ _ => 1)

/-- A concrete input for `mTr`: two frames. -/
def xTr : Tensor3 := ⟨1, 2, 1, fun _ _ _ => 0⟩

lemma encoderLayer_batch (M : Option Mask) (P : Option PadMask) (t : Tensor3) :
    (encoderLayer M P t).batch = t.batch := rfl

lemma encoderLayer_time (M : Option Mask) (P : Option PadMask) (t : Tensor3) :
    (encoderLayer M P t).time = t.time := rfl

lemma encoderLayer_feat (M : Option Mask) (P : Option PadMask) (t : Tensor3) :
    (encoderLayer M P t).feat = t.feat := rfl

lemma encoderIter_batch (M : Option Mask) (P : Option PadMask) (n : Nat)
    (t : Tensor3) : ((encoderLayer M P)^[n] t).batch = t.batch := by
  induction n generalizing t with
  | zero => rfl
  | succ n ih =>
    rw [Function.iterate_succ_apply]
    exact ih (encoderLayer M P t)

lemma encoderIter_time (M : Option Mask) (P : Option PadMask) (n : Nat)
    (t : Tensor3) : ((encoderLayer M P)^[n] t).time = t.time := by
  induction n generalizing t with
  | zero => rfl
  | succ n ih =>
    rw [Function.iterate_succ_apply]
    exact ih (encoderLayer M P t)

lemma encoderIter_feat (M : Option Mask) (P : Option PadMask) (n : Nat)
    (t : Tensor3) : ((encoderLayer M P)^[n] t).feat = t.feat := by
  induction n generalizing t with
  | zero => rfl
  | succ n ih =>
    rw [Function.iterate_succ_apply]
    exact ih (encoderLayer M P t)

/-- C1: with `custom_emb_module=None`, `forward` maps an input of shape
`(B, T, input_size)` to an output of shape `(B, T, output_size)`, for every
choice of `num_layers` and `nhead` (so the output shape does not depend on
them); instantiating at `B = 8`, `T = 120`, `input_size = 256`,
`output_size = 257` gives the documented example shape `[8, 120, 257]`. -/
theorem forward_output_shape (output_size input_size : Nat) (oact : ℚ → ℚ)
    (nhead num_layers d_ffn : Nat) (dropout : ℚ) (act : ℚ → ℚ) (causal : Bool)
    (W : Nat → Nat → ℚ) (x : Tensor3) (pad : Option PadMask) :
    ((CNNTransformerSE.init output_size input_size oact nhead num_layers d_ffn
        dropout act causal none W).forward x pad).2.batch = x.batch ∧
    ((CNNTransformerSE.init output_size input_size oact nhead num_layers d_ffn
        dropout act causal none W).forward x pad).2.time = x.time ∧
    ((CNNTransformerSE.init output_size input_size oact nhead num_layers d_ffn
        dropout act causal none W).forward x pad).2.feat = output_size := by
  refine ⟨?_, ?_, rfl⟩
  · exact encoderIter_batch _ _ num_layers x
  · exact encoderIter_time _ _ num_layers x

/-- C3: `forward` computes exactly the source pipeline: the mask is the
lookahead mask of the raw input when `causal` (else `None`); the encoder is
called on the (possibly embedded) input with that mask and the padding mask,
keeping only the primary output (`.1` discards the attention diagnostics);
then the linear projection, then the output activation, whose result is
returned. -/
theorem forward_pipeline (m : CNNTransformerSE) (x : Tensor3)
    (pad : Option PadMask) :
    m.forward x pad =
      ({ m with attn_mask := forwardMask m x },
        activApply m.output_activation
          (m.output_layer.apply
            ((m.toTransformerInterface.encoder (forwardEmb m x)
                (forwardMask m x) pad).1))) ∧
    forwardMask m x = (if m.causal then some (get_lookahead_mask x) else none) ∧
    forwardEmb m x = (match m.custom_emb_module with
      | some f => f x
      | none => x) :=
  ⟨rfl, rfl, rfl⟩

/-- C7: the constructor delegates to the transformer interface with
`num_encoder_layers = num_layers`, `num_decoder_layers = 0`, the given head
count, input width, feed-forward width, dropout and inner activation, with
positional encoding disabled; and it owns a bias-free linear projection from
`input_size` to `output_size` (its application adds no bias term) and the
instantiated output activation. -/
theorem init_delegates (output_size input_size : Nat) (oact : ℚ → ℚ)
    (nhead num_layers d_ffn : Nat) (dropout : ℚ) (act : ℚ → ℚ) (causal : Bool)
    (emb : Option (Tensor3 → Tensor3)) (W : Nat → Nat → ℚ) :
    (CNNTransformerSE.init output_size input_size oact nhead num_layers d_ffn
        dropout act causal emb W).nhead = nhead ∧
    (CNNTransformerSE.init output_size input_size oact nhead num_layers d_ffn
        dropout act causal emb W).input_size = input_size ∧
    (CNNTransformerSE.init output_size input_size oact nhead num_layers d_ffn
        dropout act causal emb W).num_encoder_layers = num_layers ∧
    (CNNTransformerSE.init output_size input_size oact nhead num_layers d_ffn
        dropout act causal emb W).num_decoder_layers = 0 ∧
    (CNNTransformerSE.init output_size input_size oact nhead num_layers d_ffn
        dropout act causal emb W).d_ffn = d_ffn ∧
    (CNNTransformerSE.init output_size input_size oact nhead num_layers d_ffn
        dropout act causal emb W).dropout = dropout ∧
    (CNNTransformerSE.init output_size input_size oact nhead num_layers d_ffn
        dropout act causal emb W).activation = act ∧
    (CNNTransformerSE.init output_size input_size oact nhead num_layers d_ffn
        dropout act causal emb W).positional_encoding = false ∧
    (CNNTransformerSE.init output_size input_size oact nhead num_layers d_ffn
        dropout act causal emb W).output_layer.n_neurons = output_size ∧
    (CNNTransformerSE.init output_size input_size oact nhead num_layers d_ffn
        dropout act causal emb W).output_layer.input_size = input_size ∧
    (CNNTransformerSE.init output_size input_size oact nhead num_layers d_ffn
        dropout act causal emb W).output_layer.bias = false ∧
    (CNNTransformerSE.init output_size input_size oact nhead num_layers d_ffn
        dropout act causal emb W).output_layer.W = W ∧
    (CNNTransformerSE.init output_size input_size oact nhead num_layers d_ffn
        dropout act causal emb W).output_activation = oact ∧
    (∀ (t : Tensor3) (bi i k : Nat),
      ((CNNTransformerSE.init output_size input_size oact nhead num_layers d_ffn
          dropout act causal emb W).output_layer.apply t).val bi i k =
        ∑ f ∈ Finset.range input_size, W k f * t.val bi i f) := by
  refine ⟨rfl, rfl, rfl, rfl, rfl, rfl, rfl, rfl, rfl, rfl, rfl, rfl, rfl,
    fun t bi i k => ?_⟩
  simp [CNNTransformerSE.init, Linear.apply]

/-- C8: each `forward` call overwrites the `attn_mask` instance attribute with
the mask derived from the current input (the lookahead mask when `causal`,
`None` otherwise), regardless of the attribute's previous value, and leaves
every other component of the module state unchanged. -/
theorem forward_frame_effect (m : CNNTransformerSE) (x : Tensor3)
    (pad : Option PadMask) :
    (m.forward x pad).1.attn_mask =
      (if m.causal then some (get_lookahead_mask x) else none) ∧
    (m.forward x pad).1.toTransformerInterface = m.toTransformerInterface ∧
    (m.forward x pad).1.custom_emb_module = m.custom_emb_module ∧
    (m.forward x pad).1.causal = m.causal ∧
    (m.forward x pad).1.output_layer = m.output_layer ∧
    (m.forward x pad).1.output_activation = m.output_activation ∧
    ∀ a : Option Mask,
      ({ m with attn_mask := a }.forward x pad).1 = (m.forward x pad).1 :=
  ⟨rfl, rfl, rfl, rfl, rfl, rfl, fun _ => rfl⟩

lemma exceptBindOk {α β : Type} (a : α) (g : α → Except String β) :
    (Except.ok a >>= g) = g a := rfl

lemma exceptBindError {α β : Type} (e : String) (g : α → Except String β) :
    ((Except.error e : Except String α) >>= g) = Except.error e := rfl

lemma encoderLayer_causal_agree (M : Option Mask) (P : Option PadMask) (j : Nat)
    (hM : ∀ a c, maskEntry M a c = false → c ≤ a)
    (t u : Tensor3) (htime : t.time = u.time)
    (h : ∀ b k f, k < j → t.val b k f = u.val b k f) :
    ∀ b i f, i < j →
      (encoderLayer M P t).val b i f = (encoderLayer M P u).val b i f := by
  intro b i f hij
  show (∑ k ∈ allowedKeys t.time M P b i, t.val b k f) /
      ((allowedKeys t.time M P b i).card : ℚ) =
    (∑ k ∈ allowedKeys u.time M P b i, u.val b k f) /
      ((allowedKeys u.time M P b i).card : ℚ)
  rw [← htime]
  have hsum : (∑ k ∈ allowedKeys t.time M P b i, t.val b k f) =
      ∑ k ∈ allowedKeys t.time M P b i, u.val b k f := by
    refine Finset.sum_congr rfl ?_
    intro k hk
    rw [allowedKeys, Finset.mem_filter] at hk
    have hall := hk.2
    rw [attnAllowed, Bool.and_eq_true] at hall
    have hmk : maskEntry M i k = false := by
      cases hval : maskEntry M i k
      · rfl
      · have := hall.1; rw [hval] at this; exact absurd this (by decide)
    exact h b k f (lt_of_le_of_lt (hM i k hmk) hij)
  rw [hsum]

lemma encoderIter_causal_agree (M : Option Mask) (P : Option PadMask) (j n : Nat)
    (hM : ∀ a c, maskEntry M a c = false → c ≤ a)
    (t u : Tensor3) (htime : t.time = u.time)
    (h : ∀ b k f, k < j → t.val b k f = u.val b k f) :
    ∀ b k f, k < j →
      ((encoderLayer M P)^[n] t).val b k f =
        ((encoderLayer M P)^[n] u).val b k f := by
  induction n generalizing t u with
  | zero => exact h
  | succ n ih =>
    intro b k f hkj
    rw [Function.iterate_succ_apply, Function.iterate_succ_apply]
    refine ih (encoderLayer M P t) (encoderLayer M P u) htime ?_ b k f hkj
    exact encoderLayer_causal_agree M P j hM t u htime h

/-- C2 (amended): with `causal = true` and `custom_emb_module = None`, `forward`
at frame `i` cannot see frames after `i`: if two inputs of equal time dimension
agree on every frame before `j`, the outputs agree on every frame before `j`.
In particular a change at a single frame `j > i` leaves the output at frame `i`
unchanged. -/
theorem causal_noninterference (m : CNNTransformerSE) (hc : m.causal = true)
    (he : m.custom_emb_module = none) (x y : Tensor3) (pad : Option PadMask)
    (j : Nat) (ht : x.time = y.time)
    (hagree : ∀ b k f, k < j → x.val b k f = y.val b k f) :
    ∀ b i f, i < j →
      (m.forward x pad).2.val b i f = (m.forward y pad).2.val b i f := by
  intro b i f hij
  have hmask : get_lookahead_mask x = get_lookahead_mask y := by
    rw [get_lookahead_mask, get_lookahead_mask, ht]
  have hmx : forwardMask m x = some (get_lookahead_mask x) := by
    rw [forwardMask, hc]; simp
  have hmy : forwardMask m y = some (get_lookahead_mask x) := by
    rw [forwardMask, hc, hmask]; simp
  have hex : forwardEmb m x = x := by rw [forwardEmb, he]
  have hey : forwardEmb m y = y := by rw [forwardEmb, he]
  have hM : ∀ a c, maskEntry (some (get_lookahead_mask x)) a c = false → c ≤ a := by
    intro a c hac
    rw [maskEntry, get_lookahead_mask] at hac
    simpa using of_decide_eq_false hac
  have henc := encoderIter_causal_agree (some (get_lookahead_mask x)) pad j
    m.num_encoder_layers hM x y ht hagree
  show m.output_activation
      ((m.output_layer.apply
        ((m.toTransformerInterface.encoder (forwardEmb m x)
            (forwardMask m x) pad).1)).val b i f) =
    m.output_activation
      ((m.output_layer.apply
        ((m.toTransformerInterface.encoder (forwardEmb m y)
            (forwardMask m y) pad).1)).val b i f)
  rw [hmx, hmy, hex, hey]
  show m.output_activation
      ((∑ g ∈ Finset.range m.output_layer.input_size,
          m.output_layer.W f g *
            ((encoderLayer (some (get_lookahead_mask x)) pad)^[m.num_encoder_layers]
                x).val b i g) +
        (if m.output_layer.bias then m.output_layer.b f else 0)) =
    m.output_activation
      ((∑ g ∈ Finset.range m.output_layer.input_size,
          m.output_layer.W f g *
            ((encoderLayer (some (get_lookahead_mask x)) pad)^[m.num_encoder_layers]
                y).val b i g) +
        (if m.output_layer.bias then m.output_layer.b f else 0))
  have hs : (∑ g ∈ Finset.range m.output_layer.input_size,
      m.output_layer.W f g *
        ((encoderLayer (some (get_lookahead_mask x)) pad)^[m.num_encoder_layers]
            x).val b i g) =
    ∑ g ∈ Finset.range m.output_layer.input_size,
      m.output_layer.W f g *
        ((encoderLayer (some (get_lookahead_mask x)) pad)^[m.num_encoder_layers]
            y).val b i g := by
    refine Finset.sum_congr rfl ?_
    intro g _
    rw [henc b i g hij]
  rw [hs]

/-- C2 witness: the amended theorem applied at a concrete causal module with
no embedding module, two concrete inputs differing only at frame 1, and
frame 0 of the output. -/
theorem causal_noninterference_witness :
    (mCz.forward xCz none).2.val 0 0 0 = (mCz.forward yCz none).2.val 0 0 0 :=
  causal_noninterference mCz rfl rfl xCz yCz none 1 rfl
    (fun b k f hk => by
      have hk0 : k = 0 := Nat.lt_one_iff.mp hk
      subst hk0; rfl)
    0 0 0 (by decide)

/-- C2 counterexample: the claim as stated quantifies over every construction
with `causal=True`, including one with a custom embedding module; with the
time-reversing embedding module `revEmb`, changing the input at frame 1 alone
changes the output at the earlier frame 0. -/
theorem causal_claim_counterexample :
    mRev.causal = true ∧
    xA.time = xB.time ∧
    xA.val 0 0 0 = xB.val 0 0 0 ∧
    xA.val 0 1 0 ≠ xB.val 0 1 0 ∧
    (mRev.forward xA none).2.val 0 0 0 ≠ (mRev.forward xB none).2.val 0 0 0 := by
  refine ⟨rfl, rfl, rfl, by norm_num [xA, xB], ?_⟩
  have h1 : allowedKeys 2 (some (Mask.mk 2 (fun i j => decide (i < j)))) none 0 0 =
      {0} := by decide
  simp [CNNTransformerSE.forward, CNNTransformerSE.init, mRev, revEmb, xA, xB,
        forwardEmb, forwardMask, activApply, Linear.apply, get_lookahead_mask,
        TransformerInterface.encoder, encoderLayer, relu,
        Finset.sum_range_succ, h1]

/-- C4: with `custom_emb_module = None`, `forward` returns exactly what the
spec's refinement definition computes when `x` is passed unchanged into the
encoder. -/
theorem forward_no_emb_identity (m : CNNTransformerSE)
    (he : m.custom_emb_module = none) (x : Tensor3) (pad : Option PadMask) :
    (m.forward x pad).2 = forwardSpecNoEmb m x pad := by
  show activApply m.output_activation
      (m.output_layer.apply
        ((m.toTransformerInterface.encoder (forwardEmb m x)
            (forwardMask m x) pad).1)) =
    forwardSpecNoEmb m x pad
  rw [forwardSpecNoEmb]
  simp only [forwardEmb, he]

/-- C4 witness: the refinement equation at a concrete module and input. -/
theorem forward_no_emb_identity_witness :
    (mId.forward xId none).2 = forwardSpecNoEmb mId xId none :=
  forward_no_emb_identity mId rfl xId none

/-- C5: every element of the returned tensor is in the range of the configured
output activation (any property holding on that range holds of every output
element); with the default rectified-linear activation every element is
non-negative. -/
theorem forward_output_range (m : CNNTransformerSE) (x : Tensor3)
    (pad : Option PadMask) :
    (∀ P : ℚ → Prop, (∀ q, P (m.output_activation q)) →
      ∀ b i f, P ((m.forward x pad).2.val b i f)) ∧
    (m.output_activation = relu →
      ∀ b i f, 0 ≤ (m.forward x pad).2.val b i f) := by
  constructor
  · intro P hP b i f
    exact hP _
  · intro hr b i f
    show 0 ≤ m.output_activation
      ((m.output_layer.apply
        ((m.toTransformerInterface.encoder (forwardEmb m x)
            (forwardMask m x) pad).1)).val b i f)
    rw [hr, relu]
    exact le_max_right _ _

/-- C5 witness: non-negativity of a concrete output entry of a module using
the rectified-linear output activation. -/
theorem forward_output_range_witness :
    0 ≤ (mR.forward xR none).2.val 0 0 0 :=
  (forward_output_range mR xR none).2 rfl 0 0 0

/-- C6: with `causal = false` the restriction fails: for the concrete module
`mNC` and inputs `xN`, `xN2` that agree at frame 0 and differ only at frame 1,
the outputs at the earlier frame 0 differ. -/
theorem noncausal_interference :
    mNC.causal = false ∧
    xN.time = xN2.time ∧
    xN.val 0 0 0 = xN2.val 0 0 0 ∧
    xN.val 0 1 0 ≠ xN2.val 0 1 0 ∧
    (mNC.forward xN none).2.val 0 0 0 ≠ (mNC.forward xN2 none).2.val 0 0 0 := by
  refine ⟨rfl, rfl, rfl, by norm_num [xN, xN2], ?_⟩
  have h1 : allowedKeys 2 none none 0 0 = {0, 1} := by decide
  simp [CNNTransformerSE.forward, CNNTransformerSE.init, mNC, xN, xN2, forwardEmb,
        forwardMask, activApply, Linear.apply, TransformerInterface.encoder,
        encoderLayer, relu, Finset.sum_range_succ, h1]

/-- C9: with each collaborator modelled as a fallible stage, the straight-line
`forward` pipeline fails exactly when a collaborator fails, propagating that
collaborator's error unchanged as the call's result (no validation of its own,
no recovery, no retry); when every stage succeeds the pipeline succeeds, and
with the pure collaborators of a module `m` it returns exactly the tensor
computed by `m.forward`. -/
theorem forward_error_propagation (m : CNNTransformerSE)
    (maskgen : Tensor3 → Except String (Option Mask))
    (emb : Tensor3 → Except String Tensor3)
    (enc : Tensor3 → Option Mask → Option PadMask →
      Except String (Tensor3 × (Nat → Nat → Nat → ℚ)))
    (proj : Tensor3 → Except String Tensor3)
    (oact : Tensor3 → Except String Tensor3)
    (x : Tensor3) (pad : Option PadMask) :
    (∀ e, maskgen x = .error e →
      stagedForward maskgen emb enc proj oact x pad = .error e) ∧
    (∀ mk e, maskgen x = .ok mk → emb x = .error e →
      stagedForward maskgen emb enc proj oact x pad = .error e) ∧
    (∀ mk x₂ e, maskgen x = .ok mk → emb x = .ok x₂ → enc x₂ mk pad = .error e →
      stagedForward maskgen emb enc proj oact x pad = .error e) ∧
    (∀ mk x₂ p e, maskgen x = .ok mk → emb x = .ok x₂ → enc x₂ mk pad = .ok p →
      proj p.1 = .error e →
      stagedForward maskgen emb enc proj oact x pad = .error e) ∧
    (∀ mk x₂ p y e, maskgen x = .ok mk → emb x = .ok x₂ → enc x₂ mk pad = .ok p →
      proj p.1 = .ok y → oact y = .error e →
      stagedForward maskgen emb enc proj oact x pad = .error e) ∧
    (∀ mk x₂ p y z, maskgen x = .ok mk → emb x = .ok x₂ → enc x₂ mk pad = .ok p →
      proj p.1 = .ok y → oact y = .ok z →
      stagedForward maskgen emb enc proj oact x pad = .ok z) ∧
    (stagedForward (fun t => .ok (forwardMask m t)) (fun t => .ok (forwardEmb m t))
        (fun s mask p => .ok (m.toTransformerInterface.encoder s mask p))
        (fun t => .ok (m.output_layer.apply t))
        (fun t => .ok (activApply m.output_activation t)) x pad =
      .ok ((m.forward x pad).2)) := by
  refine ⟨?_, ?_, ?_, ?_, ?_, ?_, rfl⟩
  · intro e h1
    simp only [stagedForward, h1, exceptBindOk, exceptBindError]
  · intro mk e h1 h2
    simp only [stagedForward, h1, h2, exceptBindOk, exceptBindError]
  · intro mk x₂ e h1 h2 h3
    simp only [stagedForward, h1, h2, h3, exceptBindOk, exceptBindError]
  · intro mk x₂ p e h1 h2 h3 h4
    simp only [stagedForward, h1, h2, h3, h4, exceptBindOk, exceptBindError]
  · intro mk x₂ p y e h1 h2 h3 h4 h5
    simp only [stagedForward, h1, h2, h3, h4, h5, exceptBindOk, exceptBindError]
  · intro mk x₂ p y z h1 h2 h3 h4 h5
    simp only [stagedForward, h1, h2, h3, h4, h5, exceptBindOk, exceptBindError]

/-- C9 witness: a failing embedding stage surfaces its error unchanged as the
result of the staged pipeline, at a concrete module and input. -/
theorem forward_error_propagation_witness :
    stagedForward (fun t => .ok (forwardMask mE t)) (fun _ => .error "emb failed")
      (fun s mask p => .ok (mE.toTransformerInterface.encoder s mask p))
      (fun t => .ok (mE.output_layer.apply t))
      (fun t => .ok (activApply mE.output_activation t)) xE none =
      .error "emb failed" :=
  (forward_error_propagation mE (fun t => .ok (forwardMask mE t))
      (fun _ => .error "emb failed")
      (fun s mask p => .ok (mE.toTransformerInterface.encoder s mask p))
      (fun t => .ok (mE.output_layer.apply t))
      (fun t => .ok (activApply mE.output_activation t)) xE none).2.1
    (forwardMask mE xE) "emb failed" rfl rfl

/-- C10: in a causal `forward` call the lookahead mask is derived from the raw
input `x` before the custom embedding module runs: the stored mask is square of
size `x.time` while the encoder receives `f x` with that very mask, so whenever
the embedding module changes the time dimension the mask's size differs from
the encoder input's time dimension. -/
theorem mask_from_raw_input (m : CNNTransformerSE) (x : Tensor3)
    (pad : Option PadMask) (f : Tensor3 → Tensor3)
    (hc : m.causal = true) (he : m.custom_emb_module = some f) :
    (m.forward x pad).1.attn_mask = some (get_lookahead_mask x) ∧
    (get_lookahead_mask x).size = x.time ∧
    (m.forward x pad).2 =
      activApply m.output_activation
        (m.output_layer.apply
          ((m.toTransformerInterface.encoder (f x)
              (some (get_lookahead_mask x)) pad).1)) ∧
    ((f x).time ≠ x.time → (get_lookahead_mask x).size ≠ (f x).time) := by
  refine ⟨?_, rfl, ?_, ?_⟩
  · show forwardMask m x = some (get_lookahead_mask x)
    rw [forwardMask, hc]; simp
  · show activApply m.output_activation
        (m.output_layer.apply
          ((m.toTransformerInterface.encoder (forwardEmb m x)
              (forwardMask m x) pad).1)) = _
    rw [forwardMask, hc]
    simp only [forwardEmb, he, if_true]
  · intro hne h
    exact hne h.symm

/-- C10 witness: with the time-shortening embedding module `truncEmb` on a
two-frame input, the stored mask is the lookahead mask of the raw input and its
size (2) differs from the encoder input's time dimension (1). -/
theorem mask_from_raw_input_witness :
    (mTr.forward xTr none).1.attn_mask = some (get_lookahead_mask xTr) ∧
    (truncEmb xTr).time ≠ xTr.time ∧
    (get_lookahead_mask xTr).size ≠ (truncEmb xTr).time :=
  ⟨(mask_from_raw_input mTr xTr none truncEmb rfl rfl).1, by decide,
    (mask_from_raw_input mTr xTr none truncEmb rfl rfl).2.2.2 (by decide)⟩

end TransformerSE
